import Mathlib

/-!
Verification development for the CSQLite bundle store
(Sources/CSQLite/csqlite.c, Sources/CSQLite/include/csqlite.h).

The store keeps two SQL relations joined by a shared TEXT primary key:

  bundles(id TEXT PRIMARY KEY, data BLOB NOT NULL)
  bundle_metadata(id TEXT PRIMARY KEY, source TEXT NOT NULL,
                  destination TEXT NOT NULL, creation_time INTEGER NOT NULL,
                  size INTEGER NOT NULL, constraints INTEGER NOT NULL,
                  FOREIGN KEY(id) REFERENCES bundles(id) ON DELETE CASCADE)

with foreign-key enforcement switched on at open (PRAGMA foreign_keys = ON).

The embedding models the persisted state as two association lists (one per
relation) and each `csqlite_*` C function as a Lean function from the state
and its C arguments to the `CSQLiteResult` code, the values written through
its out-pointers, and the state after the call.  C pointer arguments that
may be NULL are modelled as `Option` values (`none` = NULL); out-pointers
are modelled as `Bool` flags (`false` = NULL pointer, so nothing can be
written through it) paired with `Option` outputs (`none` = nothing was
written).  Blobs are byte lists; the `uint64_t` columns are `Nat` and the
`int` constraints column is `Int` (the C code only stores and reloads these
values, it never computes with them, so no wrap-around arises).  The SQLite
engine itself is an external collaborator; the semantics of the individual
SQL statements the C code issues (parameterised INSERT/SELECT/UPDATE/DELETE
on the two relations above, with primary-key uniqueness, NOT NULL checks
and the ON DELETE CASCADE foreign key) are modelled directly on the
association lists.
-/

/-- Result codes of the C API, from `CSQLiteResult` in csqlite.h. -/
inductive CSQLiteResult : Type where
  | CSQLITE_OK : CSQLiteResult
  | CSQLITE_ERROR : CSQLiteResult
  | CSQLITE_NOT_FOUND : CSQLiteResult
  | CSQLITE_CONSTRAINT : CSQLiteResult
deriving DecidableEq

open CSQLiteResult

/-- Bytes of a stored blob (the C side passes `const uint8_t*` plus a
length; the list is exactly the `bundle_size` bytes that get bound). -/
abbrev Bytes := List Nat

/-- Column values of one `bundle_metadata` row apart from its `id` key:
source, destination, creation_time, size, constraints.  All five columns
are NOT NULL, so they are plain values here. -/
structure MetadataRow : Type where
  source : String
  destination : String
  creation_time : Nat
  size : Nat
  constraints : Int
deriving DecidableEq

/-- The C struct `CSQLiteBundleMetadata`.  Its three string fields are C
pointers and may be NULL, hence `Option String`. -/
structure CSQLiteBundleMetadata : Type where
  id : Option String
  source : Option String
  destination : Option String
  creation_time : Nat
  size : Nat
  constraints : Int
deriving DecidableEq

/-- Persisted state of an open store: the rows of the two relations, as
association lists keyed by the TEXT primary key `id`. -/
structure DBState : Type where
  bundles : List (String × Bytes)
  bundle_metadata : List (String × MetadataRow)
deriving DecidableEq

/-- State of a store freshly created by `csqlite_open` on a new path (the
CREATE TABLE statements make both relations, empty). -/
def emptyDB : DBState := ⟨[], []⟩

/-- Lookup of the row with primary key `i` in a relation (the semantics of
`SELECT ... WHERE id = ?` on a single-row key). -/
def rowLookup {α : Type} (i : String) : List (String × α) → Option α
  | [] => none
  | (k, v) :: rest => if k = i then some v else rowLookup i rest

/-- Semantics of `UPDATE bundle_metadata SET ... WHERE id = ?`: every row
whose key matches gets the new column values; keys are untouched. -/
def updateRows (rows : List (String × MetadataRow)) (mid : String)
    (f : MetadataRow) : List (String × MetadataRow) :=
  rows.map (fun r => (r.1, if r.1 = mid then f else r.2))

/-- Semantics of `DELETE FROM ... WHERE id = ?`: drop every row whose key
matches. -/
def deleteRows {α : Type} (rows : List (String × α)) (i : String) :
    List (String × α) :=
  rows.filter (fun r => r.1 != i)

/-- The C function `csqlite_store_bundle` (csqlite.c lines 63-122).
NULL-argument check, then BEGIN TRANSACTION; INSERT INTO bundles; INSERT
INTO bundle_metadata; COMMIT.  The first insert fails with
SQLITE_CONSTRAINT exactly on a duplicate primary key, which the C maps to
`CSQLITE_CONSTRAINT` after ROLLBACK.  The second insert binds
`metadata->id/source/destination` (NULL binds violate the NOT NULL and
primary-key columns) and is additionally subject to the foreign key
requiring `metadata->id` to be a `bundles` key in the in-transaction state;
any failure there is mapped to `CSQLITE_ERROR` after ROLLBACK, so the
pre-call state is returned.  Note that the C code checks `!bundle_id`
(NULL pointer) only: the empty string is accepted as an id. -/
def csqlite_store_bundle (db : DBState) (bundle_id : Option String)
    (bundle_data : Option Bytes) (metadata : Option CSQLiteBundleMetadata) :
    CSQLiteResult × DBState :=
  match bundle_id, bundle_data, metadata with
  | some bid, some bdata, some md =>
    if (rowLookup bid db.bundles).isSome then
      (CSQLITE_CONSTRAINT, db)
    else
      match md.id, md.source, md.destination with
      | some mid, some msrc, some mdst =>
        if (rowLookup mid db.bundle_metadata).isSome
            || (rowLookup mid ((bid, bdata) :: db.bundles)).isNone then
          (CSQLITE_ERROR, db)
        else
          (CSQLITE_OK,
           ⟨(bid, bdata) :: db.bundles,
            (mid, ⟨msrc, mdst, md.creation_time, md.size, md.constraints⟩)
              :: db.bundle_metadata⟩)
      | _, _, _ => (CSQLITE_ERROR, db)
  | _, _, _ => (CSQLITE_ERROR, db)

/-- The C function `csqlite_get_bundle` (csqlite.c lines 124-155).
Arguments: the id (NULL rejected) and the two out-pointers `bundle_data`
and `bundle_size` (`false` = NULL, rejected).  On a matching row it copies
the blob into a fresh buffer and writes the blob byte count; with no
matching row nothing is written and it returns `CSQLITE_NOT_FOUND`.
Outputs: result, written data, written size, state after the call. -/
def csqlite_get_bundle (db : DBState) (bundle_id : Option String)
    (bundle_data_ptr : Bool) (bundle_size_ptr : Bool) :
    CSQLiteResult × Option Bytes × Option Nat × DBState :=
  match bundle_id with
  | none => (CSQLITE_ERROR, none, none, db)
  | some bid =>
    if bundle_data_ptr && bundle_size_ptr then
      match rowLookup bid db.bundles with
      | some data => (CSQLITE_OK, some data, some data.length, db)
      | none => (CSQLITE_NOT_FOUND, none, none, db)
    else (CSQLITE_ERROR, none, none, db)

/-- The C function `csqlite_get_metadata` (csqlite.c lines 157-187).
On a matching row it fills the caller's struct with fresh copies of every
column (all columns are NOT NULL, so the copies are non-NULL). -/
def csqlite_get_metadata (db : DBState) (bundle_id : Option String)
    (metadata_ptr : Bool) :
    CSQLiteResult × Option CSQLiteBundleMetadata × DBState :=
  match bundle_id with
  | none => (CSQLITE_ERROR, none, db)
  | some bid =>
    if metadata_ptr then
      match rowLookup bid db.bundle_metadata with
      | some r =>
        (CSQLITE_OK,
         some ⟨some bid, some r.source, some r.destination,
               r.creation_time, r.size, r.constraints⟩, db)
      | none => (CSQLITE_NOT_FOUND, none, db)
    else (CSQLITE_ERROR, none, db)

/-- The C function `csqlite_update_metadata` (csqlite.c lines 189-217).
Rejects NULL `metadata` and NULL `metadata->id`, then runs a single UPDATE
on `bundle_metadata`.  If no row matches the UPDATE succeeds touching zero
rows and `sqlite3_changes = 0` yields `CSQLITE_NOT_FOUND`; if a row matches
but a bound NULL violates a NOT NULL column the step fails and the C
returns `CSQLITE_ERROR`; otherwise the row's five mutable columns are
replaced and `changes > 0` yields `CSQLITE_OK`. -/
def csqlite_update_metadata (db : DBState)
    (metadata : Option CSQLiteBundleMetadata) : CSQLiteResult × DBState :=
  match metadata with
  | none => (CSQLITE_ERROR, db)
  | some md =>
    match md.id with
    | none => (CSQLITE_ERROR, db)
    | some mid =>
      match rowLookup mid db.bundle_metadata with
      | none => (CSQLITE_NOT_FOUND, db)
      | some _ =>
        match md.source, md.destination with
        | some msrc, some mdst =>
          (CSQLITE_OK,
           ⟨db.bundles,
            updateRows db.bundle_metadata mid
              ⟨msrc, mdst, md.creation_time, md.size, md.constraints⟩⟩)
        | _, _ => (CSQLITE_ERROR, db)

/-- The C function `csqlite_remove_bundle` (csqlite.c lines 219-241).
A single `DELETE FROM bundles WHERE id = ?`; with foreign keys on, the
ON DELETE CASCADE clause drops the `bundle_metadata` rows whose id matches
a deleted `bundles` row in the same engine-level operation.
`sqlite3_changes` counts the directly deleted `bundles` rows: zero gives
`CSQLITE_NOT_FOUND` (and then no cascade fired, so the state is
unchanged). -/
def csqlite_remove_bundle (db : DBState) (bundle_id : Option String) :
    CSQLiteResult × DBState :=
  match bundle_id with
  | none => (CSQLITE_ERROR, db)
  | some bid =>
    if (rowLookup bid db.bundles).isSome then
      (CSQLITE_OK, ⟨deleteRows db.bundles bid,
                    deleteRows db.bundle_metadata bid⟩)
    else (CSQLITE_NOT_FOUND, db)

/-- The C function `csqlite_has_bundle` (csqlite.c lines 243-263).
Writes through the `exists` out-pointer whether a row matched; absence is
`false`, not an error, and the result is `CSQLITE_OK` either way. -/
def csqlite_has_bundle (db : DBState) (bundle_id : Option String)
    (exists_ptr : Bool) : CSQLiteResult × Option Bool × DBState :=
  match bundle_id with
  | none => (CSQLITE_ERROR, none, db)
  | some bid =>
    if exists_ptr then
      (CSQLITE_OK, some (rowLookup bid db.bundles).isSome, db)
    else (CSQLITE_ERROR, none, db)

/-- The C function `csqlite_count_bundles` (csqlite.c lines 265-287):
`SELECT COUNT(*) FROM bundles`.  The pair's second component is the state
after the call. -/
def csqlite_count_bundles (db : DBState) : Nat × DBState :=
  (db.bundles.length, db)

/-- The C function `csqlite_get_all_ids` (csqlite.c lines 289-334).
Two passes over `SELECT id FROM bundles`: first counting the rows, then,
unless the count was zero (in which case a NULL array and count 0 are
written), allocating exactly that many slots and copying each id. -/
def csqlite_get_all_ids (db : DBState) (ids_ptr : Bool) (count_ptr : Bool) :
    CSQLiteResult × Option (List String) × Option Nat × DBState :=
  match ids_ptr, count_ptr with
  | true, true =>
    let n := db.bundles.length
    if n = 0 then (CSQLITE_OK, some [], some 0, db)
    else (CSQLITE_OK, some (db.bundles.map Prod.fst), some n, db)
  | _, _ => (CSQLITE_ERROR, none, none, db)

/-- The C function `csqlite_get_all_metadata` (csqlite.c lines 336-385).
Same two-pass shape as `csqlite_get_all_ids`, copying out full records. -/
def csqlite_get_all_metadata (db : DBState) (metadata_ptr : Bool)
    (count_ptr : Bool) :
    CSQLiteResult × Option (List CSQLiteBundleMetadata) × Option Nat × DBState :=
  match metadata_ptr, count_ptr with
  | true, true =>
    let n := db.bundle_metadata.length
    if n = 0 then (CSQLITE_OK, some [], some 0, db)
    else
      (CSQLITE_OK,
       some (db.bundle_metadata.map (fun r =>
         ⟨some r.1, some r.2.source, some r.2.destination,
          r.2.creation_time, r.2.size, r.2.constraints⟩)),
       some n, db)
  | _, _ => (CSQLITE_ERROR, none, none, db)

/-- Referential invariant of §3 of the spec: a `bundle_metadata` row with
id `i` exists if and only if a `bundles` row with id `i` exists. -/
def metaMatchesBundles (db : DBState) : Prop :=
  ∀ i : String,
    (rowLookup i db.bundle_metadata).isSome ↔ (rowLookup i db.bundles).isSome

/-- Store states reachable through the public operations, starting from a
freshly opened (empty) store. -/
inductive Reachable : DBState → Prop where
  | init : Reachable emptyDB
  | store (i : Option String) (p : Option Bytes)
      (m : Option CSQLiteBundleMetadata) {db : DBState} :
      Reachable db → Reachable (csqlite_store_bundle db i p m).2
  | update (m : Option CSQLiteBundleMetadata) {db : DBState} :
      Reachable db → Reachable (csqlite_update_metadata db m).2
  | remove (i : Option String) {db : DBState} :
      Reachable db → Reachable (csqlite_remove_bundle db i).2
  | getB (i : Option String) (b1 b2 : Bool) {db : DBState} :
      Reachable db → Reachable (csqlite_get_bundle db i b1 b2).2.2.2
  | getM (i : Option String) (b : Bool) {db : DBState} :
      Reachable db → Reachable (csqlite_get_metadata db i b).2.2
  | hasB (i : Option String) (b : Bool) {db : DBState} :
      Reachable db → Reachable (csqlite_has_bundle db i b).2.2
  | countB {db : DBState} :
      Reachable db → Reachable (csqlite_count_bundles db).2
  | allIds (b1 b2 : Bool) {db : DBState} :
      Reachable db → Reachable (csqlite_get_all_ids db b1 b2).2.2.2
  | allMeta (b1 b2 : Bool) {db : DBState} :
      Reachable db → Reachable (csqlite_get_all_metadata db b1 b2).2.2.2

/-! ### Basic lemmas about the relational primitives -/

theorem rowLookup_cons {α : Type} (k i : String) (v : α)
    (rest : List (String × α)) :
    rowLookup i ((k, v) :: rest) = if k = i then some v else rowLookup i rest :=
  rfl

theorem rowLookup_deleteRows_self {α : Type} (i : String)
    (rows : List (String × α)) : rowLookup i (deleteRows rows i) = none := by
  induction rows with
  | nil => rfl
  | cons r rest ih =>
    obtain ⟨k, v⟩ := r
    by_cases hk : k = i
    · simpa [deleteRows, List.filter_cons, hk] using ih
    · simpa [deleteRows, List.filter_cons, hk, rowLookup] using ih

theorem rowLookup_deleteRows_ne {α : Type} {i j : String} (h : j ≠ i)
    (rows : List (String × α)) :
    rowLookup j (deleteRows rows i) = rowLookup j rows := by
  induction rows with
  | nil => rfl
  | cons r rest ih =>
    obtain ⟨k, v⟩ := r
    by_cases hkj : k = j
    · subst hkj
      simp [deleteRows, List.filter_cons, h, rowLookup]
    · by_cases hki : k = i
      · subst hki
        simpa [deleteRows, List.filter_cons, rowLookup, hkj] using ih
      · simpa [deleteRows, List.filter_cons, hki, rowLookup, hkj] using ih

theorem rowLookup_updateRows_self (rows : List (String × MetadataRow))
    (mid : String) (f : MetadataRow)
    (h : (rowLookup mid rows).isSome) :
    rowLookup mid (updateRows rows mid f) = some f := by
  induction rows with
  | nil => simp [rowLookup] at h
  | cons r rest ih =>
    obtain ⟨k, v⟩ := r
    by_cases hk : k = mid
    · subst hk
      simp [updateRows, rowLookup]
    · simp only [rowLookup, hk, if_false] at h
      simpa [updateRows, rowLookup, hk] using ih h

theorem rowLookup_updateRows_ne (rows : List (String × MetadataRow))
    (mid : String) (f : MetadataRow) {j : String} (h : j ≠ mid) :
    rowLookup j (updateRows rows mid f) = rowLookup j rows := by
  induction rows with
  | nil => rfl
  | cons r rest ih =>
    obtain ⟨k, v⟩ := r
    by_cases hkm : k = mid
    · subst hkm
      have hkj : ¬ (k = j) := fun hkj => h hkj.symm
      simpa [updateRows, rowLookup, hkj] using ih
    · by_cases hkj : k = j
      · subst hkj
        simp [updateRows, rowLookup, hkm]
      · simpa [updateRows, rowLookup, hkm, hkj] using ih

theorem rowLookup_updateRows_isSome (rows : List (String × MetadataRow))
    (mid : String) (f : MetadataRow) (j : String) :
    (rowLookup j (updateRows rows mid f)).isSome = (rowLookup j rows).isSome := by
  induction rows with
  | nil => rfl
  | cons r rest ih =>
    obtain ⟨k, v⟩ := r
    by_cases hkm : k = mid
    · subst hkm
      by_cases hkj : k = j
      · subst hkj
        simp [updateRows, rowLookup]
      · simpa [updateRows, rowLookup, hkj] using ih
    · by_cases hkj : k = j
      · subst hkj
        simp [updateRows, rowLookup, hkm]
      · simpa [updateRows, rowLookup, hkm, hkj] using ih

/-! ### State preservation of the query operations -/

theorem get_bundle_state (db : DBState) (id : Option String) (b1 b2 : Bool) :
    (csqlite_get_bundle db id b1 b2).2.2.2 = db := by
  cases id with
  | none => rfl
  | some bid =>
    cases b1 <;> cases b2 <;> simp only [csqlite_get_bundle, Bool.and_self,
      Bool.false_and, Bool.and_false, Bool.true_and, Bool.false_eq_true,
      if_false, if_true, ite_true, ite_false, cond_false, cond_true]
    all_goals
      first
      | rfl
      | (cases hb : rowLookup bid db.bundles <;> simp [hb])

theorem get_metadata_state (db : DBState) (id : Option String) (b : Bool) :
    (csqlite_get_metadata db id b).2.2 = db := by
  cases id with
  | none => rfl
  | some bid =>
    cases b <;> simp only [csqlite_get_metadata, Bool.false_eq_true,
      if_false, if_true, ite_true, ite_false]
    all_goals
      first
      | rfl
      | (cases hb : rowLookup bid db.bundle_metadata <;> simp [hb])

theorem has_bundle_state (db : DBState) (id : Option String) (b : Bool) :
    (csqlite_has_bundle db id b).2.2 = db := by
  cases id with
  | none => rfl
  | some bid => cases b <;> rfl

theorem count_bundles_state (db : DBState) :
    (csqlite_count_bundles db).2 = db := rfl

theorem get_all_ids_state (db : DBState) (b1 b2 : Bool) :
    (csqlite_get_all_ids db b1 b2).2.2.2 = db := by
  cases b1 <;> cases b2 <;>
    simp only [csqlite_get_all_ids] <;>
    first
    | rfl
    | (by_cases hn : db.bundles.length = 0 <;> simp [hn])

theorem get_all_metadata_state (db : DBState) (b1 b2 : Bool) :
    (csqlite_get_all_metadata db b1 b2).2.2.2 = db := by
  cases b1 <;> cases b2 <;>
    simp only [csqlite_get_all_metadata] <;>
    first
    | rfl
    | (by_cases hn : db.bundle_metadata.length = 0 <;> simp [hn])

/-! ### Anatomy of a successful store -/

theorem store_ok_destruct {db db1 : DBState} {bid : String} {bdata : Bytes}
    {md : CSQLiteBundleMetadata}
    (h : csqlite_store_bundle db (some bid) (some bdata) (some md)
         = (CSQLITE_OK, db1)) :
    ∃ mid msrc mdst, md.id = some mid ∧ md.source = some msrc ∧
      md.destination = some mdst ∧
      rowLookup bid db.bundles = none ∧
      rowLookup mid db.bundle_metadata = none ∧
      (rowLookup mid ((bid, bdata) :: db.bundles)).isSome ∧
      db1 = ⟨(bid, bdata) :: db.bundles,
             (mid, ⟨msrc, mdst, md.creation_time, md.size, md.constraints⟩)
               :: db.bundle_metadata⟩ := by
  unfold csqlite_store_bundle at h
  cases hb : rowLookup bid db.bundles with
  | some v => simp [hb] at h
  | none =>
    simp only [hb, Option.isSome_none, Bool.false_eq_true, if_false] at h
    cases hmi : md.id with
    | none => simp [hmi] at h
    | some mid =>
      cases hms : md.source with
      | none => simp [hmi, hms] at h
      | some msrc =>
        cases hmd : md.destination with
        | none => simp [hmi, hms, hmd] at h
        | some mdst =>
          simp only [hmi, hms, hmd] at h
          cases hm2 : rowLookup mid db.bundle_metadata with
          | some w => simp [hm2] at h
          | none =>
            cases hfk : rowLookup mid ((bid, bdata) :: db.bundles) with
            | none => simp [hm2, hfk] at h
            | some w =>
              simp only [hm2, hfk, Option.isSome_none, Option.isNone_some,
                Bool.or_false, Bool.false_eq_true, if_false,
                Prod.mk.injEq, true_and] at h
              exact ⟨mid, msrc, mdst, rfl, rfl, rfl, rfl, hm2,
                by simp [hfk], h.symm⟩

theorem store_ok_mid_eq {db : DBState} {bid mid : String} {bdata : Bytes}
    (hinv : metaMatchesBundles db)
    (hm : rowLookup mid db.bundle_metadata = none)
    (hfk : (rowLookup mid ((bid, bdata) :: db.bundles)).isSome) :
    mid = bid := by
  by_cases hbm : bid = mid
  · exact hbm.symm
  · exfalso
    rw [rowLookup_cons] at hfk
    simp only [hbm, if_false] at hfk
    have hsome := (hinv mid).mpr hfk
    rw [hm] at hsome
    simp at hsome

/-! ### Preservation of the referential invariant -/

theorem insert_preserves_inv {db : DBState} {bid : String} {bdata : Bytes}
    {f : MetadataRow} (hinv : metaMatchesBundles db) :
    metaMatchesBundles
      ⟨(bid, bdata) :: db.bundles, (bid, f) :: db.bundle_metadata⟩ := by
  intro j
  rw [rowLookup_cons, rowLookup_cons]
  by_cases hbj : bid = j
  · simp [hbj]
  · simp only [hbj, if_false]
    exact hinv j

theorem store_preserves_inv (db : DBState) (i : Option String)
    (p : Option Bytes) (m : Option CSQLiteBundleMetadata)
    (hinv : metaMatchesBundles db) :
    metaMatchesBundles (csqlite_store_bundle db i p m).2 := by
  rcases i with _ | bid
  · exact hinv
  rcases p with _ | bdata
  · exact hinv
  rcases m with _ | md
  · exact hinv
  cases hb : rowLookup bid db.bundles with
  | some v => simpa [csqlite_store_bundle, hb] using hinv
  | none =>
    cases hmi : md.id with
    | none => simpa [csqlite_store_bundle, hb, hmi] using hinv
    | some mid =>
      cases hms : md.source with
      | none => simpa [csqlite_store_bundle, hb, hmi, hms] using hinv
      | some msrc =>
        cases hmd : md.destination with
        | none => simpa [csqlite_store_bundle, hb, hmi, hms, hmd] using hinv
        | some mdst =>
          cases hm2 : rowLookup mid db.bundle_metadata with
          | some w =>
            simpa [csqlite_store_bundle, hb, hmi, hms, hmd, hm2] using hinv
          | none =>
            cases hfk : rowLookup mid ((bid, bdata) :: db.bundles) with
            | none =>
              simpa [csqlite_store_bundle, hb, hmi, hms, hmd, hm2, hfk]
                using hinv
            | some w =>
              have hmb : mid = bid :=
                @store_ok_mid_eq db bid mid bdata hinv hm2 (by simp [hfk])
              subst hmb
              have hred :
                  (csqlite_store_bundle db (some mid) (some bdata)
                    (some md)).2
                  = ⟨(mid, bdata) :: db.bundles,
                     (mid, ⟨msrc, mdst, md.creation_time, md.size,
                       md.constraints⟩) :: db.bundle_metadata⟩ := by
                simp [csqlite_store_bundle, hb, hmi, hms, hmd, hm2, hfk]
              rw [hred]
              exact insert_preserves_inv hinv

theorem update_preserves_inv (db : DBState)
    (m : Option CSQLiteBundleMetadata) (hinv : metaMatchesBundles db) :
    metaMatchesBundles (csqlite_update_metadata db m).2 := by
  rcases m with _ | md
  · exact hinv
  cases hmi : md.id with
  | none => simpa [csqlite_update_metadata, hmi] using hinv
  | some mid =>
    cases hl : rowLookup mid db.bundle_metadata with
    | none => simpa [csqlite_update_metadata, hmi, hl] using hinv
    | some r =>
      cases hms : md.source with
      | none => simpa [csqlite_update_metadata, hmi, hl, hms] using hinv
      | some msrc =>
        cases hmd : md.destination with
        | none =>
          simpa [csqlite_update_metadata, hmi, hl, hms, hmd] using hinv
        | some mdst =>
          have hred : (csqlite_update_metadata db (some md)).2
              = ⟨db.bundles,
                 updateRows db.bundle_metadata mid
                   ⟨msrc, mdst, md.creation_time, md.size,
                    md.constraints⟩⟩ := by
            simp [csqlite_update_metadata, hmi, hl, hms, hmd]
          rw [hred]
          intro j
          rw [rowLookup_updateRows_isSome]
          exact hinv j

theorem remove_preserves_inv (db : DBState) (i : Option String)
    (hinv : metaMatchesBundles db) :
    metaMatchesBundles (csqlite_remove_bundle db i).2 := by
  rcases i with _ | bid
  · exact hinv
  cases hb : rowLookup bid db.bundles with
  | none => simpa [csqlite_remove_bundle, hb] using hinv
  | some v =>
    have hred : (csqlite_remove_bundle db (some bid)).2
        = ⟨deleteRows db.bundles bid, deleteRows db.bundle_metadata bid⟩ := by
      simp [csqlite_remove_bundle, hb]
    rw [hred]
    intro j
    by_cases hj : j = bid
    · subst hj
      simp [rowLookup_deleteRows_self]
    · rw [show (⟨deleteRows db.bundles bid,
          deleteRows db.bundle_metadata bid⟩ : DBState).bundle_metadata
          = deleteRows db.bundle_metadata bid from rfl]
      rw [show (⟨deleteRows db.bundles bid,
          deleteRows db.bundle_metadata bid⟩ : DBState).bundles
          = deleteRows db.bundles bid from rfl]
      rw [rowLookup_deleteRows_ne hj, rowLookup_deleteRows_ne hj]
      exact hinv j

/-! ### Claim theorems -/

/-- C3: in every store state reachable through the public operations, a
`bundle_metadata` row with id `i` exists if and only if a `bundles` row
with id `i` exists; no operation can remove metadata while leaving its
bundle, insert a bundle without its metadata, or insert metadata without
its bundle. -/
theorem reachable_meta_matches_bundles (db : DBState) (h : Reachable db) :
    metaMatchesBundles db := by
  induction h with
  | init => intro i; exact Iff.rfl
  | store i p m _ ih => exact store_preserves_inv _ i p m ih
  | update m _ ih => exact update_preserves_inv _ m ih
  | remove i _ ih => exact remove_preserves_inv _ i ih
  | getB i b1 b2 _ ih => rw [get_bundle_state]; exact ih
  | getM i b _ ih => rw [get_metadata_state]; exact ih
  | hasB i b _ ih => rw [has_bundle_state]; exact ih
  | countB _ ih => rw [count_bundles_state]; exact ih
  | allIds b1 b2 _ ih => rw [get_all_ids_state]; exact ih
  | allMeta b1 b2 _ ih => rw [get_all_metadata_state]; exact ih

/-- Witness for C3: the invariant holds at the concrete state reached by
one successful store on a fresh store. -/
theorem reachable_meta_matches_bundles_witness :
    metaMatchesBundles
      (csqlite_store_bundle emptyDB (some "a") (some [1, 2, 3])
        (some ⟨some "a", some "src", some "dst", 1000, 3, 0⟩)).2 :=
  reachable_meta_matches_bundles _
    (Reachable.store (some "a") (some [1, 2, 3])
      (some ⟨some "a", some "src", some "dst", 1000, 3, 0⟩) Reachable.init)

/-- C1: round-trip — if `csqlite_store_bundle(i, p, m)` returns Ok on a
store not already containing `i`, a subsequent `csqlite_get_bundle(i)`
returns Ok with a byte sequence equal to `p` and a size equal to the
length of `p`. -/
theorem store_get_roundtrip (db db1 : DBState) (i : String) (p : Bytes)
    (m : CSQLiteBundleMetadata)
    (hfresh : rowLookup i db.bundles = none)
    (h : csqlite_store_bundle db (some i) (some p) (some m)
         = (CSQLITE_OK, db1)) :
    csqlite_get_bundle db1 (some i) true true
      = (CSQLITE_OK, some p, some p.length, db1) := by
  obtain ⟨mid, msrc, mdst, hmi, hms, hmd, hb, hm2, hfk, hdb1⟩ :=
    store_ok_destruct h
  subst hdb1
  simp [csqlite_get_bundle, rowLookup]

/-- Witness for C1 at the concrete scenario of §8 of the spec. -/
theorem store_get_roundtrip_witness :
    csqlite_get_bundle
      (csqlite_store_bundle emptyDB (some "b1") (some [1, 2, 3])
        (some ⟨some "b1", some "A", some "B", 1000, 3, 0⟩)).2
      (some "b1") true true
    = (CSQLITE_OK, some [1, 2, 3], some 3,
       (csqlite_store_bundle emptyDB (some "b1") (some [1, 2, 3])
         (some ⟨some "b1", some "A", some "B", 1000, 3, 0⟩)).2) :=
  store_get_roundtrip emptyDB _ "b1" [1, 2, 3]
    ⟨some "b1", some "A", some "B", 1000, 3, 0⟩ rfl rfl

/-- C2: duplicate-id atomicity — after a successful store of `i` (on a
store satisfying the referential invariant), a second store of `i` returns
Constraint and leaves the state untouched, so reading back the bundle and
the metadata of `i` still yields the first call's payload and record. -/
theorem store_duplicate_rollback (db db1 : DBState) (i : String)
    (p1 p2 : Bytes) (m1 m2 : CSQLiteBundleMetadata)
    (hinv : metaMatchesBundles db)
    (h : csqlite_store_bundle db (some i) (some p1) (some m1)
         = (CSQLITE_OK, db1)) :
    csqlite_store_bundle db1 (some i) (some p2) (some m2)
        = (CSQLITE_CONSTRAINT, db1)
    ∧ csqlite_get_bundle db1 (some i) true true
        = (CSQLITE_OK, some p1, some p1.length, db1)
    ∧ csqlite_get_metadata db1 (some i) true = (CSQLITE_OK, some m1, db1) := by
  obtain ⟨mid, msrc, mdst, hmi, hms, hmd, hb, hm2, hfk, hdb1⟩ :=
    store_ok_destruct h
  have hmb : mid = i := @store_ok_mid_eq db i mid p1 hinv hm2 hfk
  subst hmb
  subst hdb1
  refine ⟨?_, ?_, ?_⟩
  · simp [csqlite_store_bundle, rowLookup]
  · simp [csqlite_get_bundle, rowLookup]
  · rcases m1 with ⟨mi, ms, mdn, ct, sz, cs⟩
    simp only at hmi hms hmd
    subst hmi
    subst hms
    subst hmd
    simp [csqlite_get_metadata, rowLookup]

/-- Witness for C2 at concrete first and second stores on a fresh store. -/
theorem store_duplicate_rollback_witness :
    csqlite_store_bundle
      (csqlite_store_bundle emptyDB (some "b1") (some [1, 2])
        (some ⟨some "b1", some "A", some "B", 5, 2, 0⟩)).2
      (some "b1") (some [9]) (some ⟨some "b1", some "C", some "D", 6, 1, 1⟩)
    = (CSQLITE_CONSTRAINT,
       (csqlite_store_bundle emptyDB (some "b1") (some [1, 2])
         (some ⟨some "b1", some "A", some "B", 5, 2, 0⟩)).2) :=
  (store_duplicate_rollback emptyDB _ "b1" [1, 2] [9]
    ⟨some "b1", some "A", some "B", 5, 2, 0⟩
    ⟨some "b1", some "C", some "D", 6, 1, 1⟩
    (fun _ => Iff.rfl) rfl).1

/-- C4: cascading delete — after a successful store of `i` followed by a
remove of `i`, the remove returns Ok and both `csqlite_get_bundle(i)` and
`csqlite_get_metadata(i)` return NotFound, although the remove issues a
single delete against the bundles relation only. -/
theorem remove_cascade_notfound (db db1 : DBState) (i : String) (p : Bytes)
    (m : CSQLiteBundleMetadata)
    (hinv : metaMatchesBundles db)
    (h : csqlite_store_bundle db (some i) (some p) (some m)
         = (CSQLITE_OK, db1)) :
    (csqlite_remove_bundle db1 (some i)).1 = CSQLITE_OK
    ∧ (csqlite_get_bundle (csqlite_remove_bundle db1 (some i)).2 (some i)
        true true).1 = CSQLITE_NOT_FOUND
    ∧ (csqlite_get_metadata (csqlite_remove_bundle db1 (some i)).2 (some i)
        true).1 = CSQLITE_NOT_FOUND := by
  obtain ⟨mid, msrc, mdst, hmi, hms, hmd, hb, hm2, hfk, hdb1⟩ :=
    store_ok_destruct h
  have hmb : mid = i := @store_ok_mid_eq db i mid p hinv hm2 hfk
  subst hmb
  subst hdb1
  refine ⟨?_, ?_, ?_⟩
  · simp [csqlite_remove_bundle, rowLookup]
  · simp [csqlite_remove_bundle, csqlite_get_bundle, rowLookup,
      rowLookup_deleteRows_self]
  · simp [csqlite_remove_bundle, csqlite_get_metadata, rowLookup,
      rowLookup_deleteRows_self]

/-- Witness for C4 at a concrete store followed by a remove. -/
theorem remove_cascade_notfound_witness :
    (csqlite_remove_bundle
      (csqlite_store_bundle emptyDB (some "b1") (some [1])
        (some ⟨some "b1", some "A", some "B", 5, 1, 0⟩)).2 (some "b1")).1
    = CSQLITE_OK :=
  (remove_cascade_notfound emptyDB _ "b1" [1]
    ⟨some "b1", some "A", some "B", 5, 1, 0⟩
    (fun _ => Iff.rfl) rfl).1

/-- C5: update frame — updating metadata whose id exists returns Ok, after
which `csqlite_get_metadata(m.id)` returns exactly the five mutable fields
of `m` with the unchanged id, the bundles relation (hence the payload read
by `csqlite_get_bundle(m.id)`) is untouched, and every other metadata row
is unchanged. -/
theorem update_metadata_frame (db : DBState) (mid msrc mdst : String)
    (m : CSQLiteBundleMetadata) (r : MetadataRow)
    (hmi : m.id = some mid) (hms : m.source = some msrc)
    (hmd : m.destination = some mdst)
    (hrow : rowLookup mid db.bundle_metadata = some r) :
    (csqlite_update_metadata db (some m)).1 = CSQLITE_OK
    ∧ (csqlite_update_metadata db (some m)).2.bundles = db.bundles
    ∧ csqlite_get_metadata (csqlite_update_metadata db (some m)).2
        (some mid) true
      = (CSQLITE_OK,
         some ⟨some mid, some msrc, some mdst, m.creation_time, m.size,
               m.constraints⟩,
         (csqlite_update_metadata db (some m)).2)
    ∧ (csqlite_get_bundle (csqlite_update_metadata db (some m)).2 (some mid)
        true true).2.1
      = (csqlite_get_bundle db (some mid) true true).2.1
    ∧ ∀ j : String, j ≠ mid →
        rowLookup j (csqlite_update_metadata db (some m)).2.bundle_metadata
        = rowLookup j db.bundle_metadata := by
  have hred : csqlite_update_metadata db (some m)
      = (CSQLITE_OK,
         ⟨db.bundles,
          updateRows db.bundle_metadata mid
            ⟨msrc, mdst, m.creation_time, m.size, m.constraints⟩⟩) := by
    simp [csqlite_update_metadata, hmi, hms, hmd, hrow]
  rw [hred]
  refine ⟨rfl, rfl, ?_, ?_, ?_⟩
  · simp [csqlite_get_metadata,
      rowLookup_updateRows_self db.bundle_metadata mid _ (by simp [hrow])]
  · simp only [csqlite_get_bundle, Bool.and_self, if_true]
    cases hx : rowLookup mid db.bundles <;> simp [hx]
  · intro j hj
    exact rowLookup_updateRows_ne db.bundle_metadata mid _ hj

/-- Witness for C5 at a concrete one-row store. -/
theorem update_metadata_frame_witness :
    (csqlite_update_metadata
      (⟨[("a", [1])], [("a", ⟨"s", "d", 1, 1, 0⟩)]⟩ : DBState)
      (some ⟨some "a", some "s2", some "d2", 7, 9, 3⟩)).1 = CSQLITE_OK :=
  (update_metadata_frame ⟨[("a", [1])], [("a", ⟨"s", "d", 1, 1, 0⟩)]⟩
    "a" "s2" "d2" ⟨some "a", some "s2", some "d2", 7, 9, 3⟩
    ⟨"s", "d", 1, 1, 0⟩ rfl rfl rfl rfl).1

/-- C6: update miss — updating metadata whose id has no row returns
NotFound and the store is unchanged (no row is created); in the code this
is decided by `sqlite3_changes` being zero after the UPDATE, not by a
pre-check select. -/
theorem update_metadata_miss (db : DBState) (mid : String)
    (m : CSQLiteBundleMetadata) (hmi : m.id = some mid)
    (hrow : rowLookup mid db.bundle_metadata = none) :
    csqlite_update_metadata db (some m) = (CSQLITE_NOT_FOUND, db) := by
  simp [csqlite_update_metadata, hmi, hrow]

/-- Witness for C6 on the empty store. -/
theorem update_metadata_miss_witness :
    csqlite_update_metadata emptyDB
      (some ⟨some "a", some "s", some "d", 1, 1, 0⟩)
    = (CSQLITE_NOT_FOUND, emptyDB) :=
  update_metadata_miss emptyDB "a" ⟨some "a", some "s", some "d", 1, 1, 0⟩
    rfl rfl

/-- C7 counterexample: `csqlite_store_bundle` with the empty string as the
identifier is not rejected — the C code only checks the pointer for NULL —
so on a fresh store it returns Ok and persists a row under the id `""`,
contradicting the claim that an empty identifier yields Error with nothing
persisted. -/
theorem store_empty_id_not_rejected :
    (csqlite_store_bundle emptyDB (some "") (some [7])
       (some ⟨some "", some "s", some "d", 1, 1, 0⟩)).1 = CSQLITE_OK
    ∧ (csqlite_store_bundle emptyDB (some "") (some [7])
       (some ⟨some "", some "s", some "d", 1, 1, 0⟩)).2.bundles
      = [("", [7])] :=
  ⟨rfl, rfl⟩

/-- C7 (amended): every public operation rejects NULL pointer arguments —
a NULL identifier, NULL data buffer, NULL metadata struct, NULL metadata
id, or NULL out-pointer — with an immediate Error and an unchanged store;
an empty (but non-NULL) identifier is not rejected. -/
theorem null_args_rejected (db : DBState) (i : Option String)
    (p : Option Bytes) (m : Option CSQLiteBundleMetadata) (b : Bool)
    (s2 d2 : Option String) (ct sz : Nat) (cs : Int) :
    csqlite_store_bundle db none p m = (CSQLITE_ERROR, db)
    ∧ csqlite_store_bundle db i none m = (CSQLITE_ERROR, db)
    ∧ csqlite_store_bundle db i p none = (CSQLITE_ERROR, db)
    ∧ csqlite_get_bundle db none b b = (CSQLITE_ERROR, none, none, db)
    ∧ csqlite_get_bundle db i false b = (CSQLITE_ERROR, none, none, db)
    ∧ csqlite_get_bundle db i b false = (CSQLITE_ERROR, none, none, db)
    ∧ csqlite_get_metadata db none b = (CSQLITE_ERROR, none, db)
    ∧ csqlite_get_metadata db i false = (CSQLITE_ERROR, none, db)
    ∧ csqlite_update_metadata db none = (CSQLITE_ERROR, db)
    ∧ csqlite_update_metadata db (some ⟨none, s2, d2, ct, sz, cs⟩)
        = (CSQLITE_ERROR, db)
    ∧ csqlite_remove_bundle db none = (CSQLITE_ERROR, db)
    ∧ csqlite_has_bundle db none b = (CSQLITE_ERROR, none, db)
    ∧ csqlite_has_bundle db i false = (CSQLITE_ERROR, none, db)
    ∧ csqlite_get_all_ids db false b = (CSQLITE_ERROR, none, none, db)
    ∧ csqlite_get_all_ids db b false = (CSQLITE_ERROR, none, none, db)
    ∧ csqlite_get_all_metadata db false b = (CSQLITE_ERROR, none, none, db)
    ∧ csqlite_get_all_metadata db b false
        = (CSQLITE_ERROR, none, none, db) := by
  cases i <;> cases p <;> cases m <;> cases b <;>
    exact ⟨rfl, rfl, rfl, rfl, rfl, rfl, rfl, rfl, rfl, rfl, rfl, rfl, rfl,
           rfl, rfl, rfl, rfl⟩

/-- C8: zero-length payload — if a zero-length payload was stored under
`i` by a successful `csqlite_store_bundle`, then `csqlite_get_bundle(i)`
returns Ok with an empty byte sequence and size 0, not NotFound and not
Error. -/
theorem get_zero_length_ok (db db1 : DBState) (i : String)
    (m : CSQLiteBundleMetadata)
    (h : csqlite_store_bundle db (some i) (some []) (some m)
         = (CSQLITE_OK, db1)) :
    csqlite_get_bundle db1 (some i) true true
      = (CSQLITE_OK, some [], some 0, db1) := by
  obtain ⟨mid, msrc, mdst, hmi, hms, hmd, hb, hm2, hfk, hdb1⟩ :=
    store_ok_destruct h
  subst hdb1
  simp [csqlite_get_bundle, rowLookup]

/-- Witness for C8: a concrete empty blob stored and read back. -/
theorem get_zero_length_ok_witness :
    csqlite_get_bundle
      (csqlite_store_bundle emptyDB (some "z") (some [])
        (some ⟨some "z", some "s", some "d", 1, 0, 0⟩)).2
      (some "z") true true
    = (CSQLITE_OK, some [], some 0,
       (csqlite_store_bundle emptyDB (some "z") (some [])
         (some ⟨some "z", some "s", some "d", 1, 0, 0⟩)).2) :=
  get_zero_length_ok emptyDB _ "z" ⟨some "z", some "s", some "d", 1, 0, 0⟩
    rfl

/-- C9: remove miss — removing an id with no bundles row returns NotFound,
the store is unchanged, and `csqlite_count_bundles` before and after the
call agree. -/
theorem remove_missing_notfound (db : DBState) (i : String)
    (h : rowLookup i db.bundles = none) :
    csqlite_remove_bundle db (some i) = (CSQLITE_NOT_FOUND, db)
    ∧ (csqlite_count_bundles (csqlite_remove_bundle db (some i)).2).1
      = (csqlite_count_bundles db).1 := by
  have hr : csqlite_remove_bundle db (some i) = (CSQLITE_NOT_FOUND, db) := by
    simp [csqlite_remove_bundle, h]
  exact ⟨hr, by rw [hr]⟩

/-- Witness for C9 on a one-row store missing the removed id. -/
theorem remove_missing_notfound_witness :
    csqlite_remove_bundle
      (⟨[("a", [1])], [("a", ⟨"s", "d", 1, 1, 0⟩)]⟩ : DBState) (some "b")
    = (CSQLITE_NOT_FOUND,
       (⟨[("a", [1])], [("a", ⟨"s", "d", 1, 1, 0⟩)]⟩ : DBState)) :=
  (remove_missing_notfound ⟨[("a", [1])], [("a", ⟨"s", "d", 1, 1, 0⟩)]⟩
    "b" rfl).1

/-- C10: queries are read-only — `csqlite_get_bundle`,
`csqlite_get_metadata`, `csqlite_has_bundle`, `csqlite_count_bundles`,
`csqlite_get_all_ids` and `csqlite_get_all_metadata` all return the store
state they were called on, whatever their result code. -/
theorem queries_read_only (db : DBState) (i : Option String)
    (b1 b2 : Bool) :
    (csqlite_get_bundle db i b1 b2).2.2.2 = db
    ∧ (csqlite_get_metadata db i b1).2.2 = db
    ∧ (csqlite_has_bundle db i b1).2.2 = db
    ∧ (csqlite_count_bundles db).2 = db
    ∧ (csqlite_get_all_ids db b1 b2).2.2.2 = db
    ∧ (csqlite_get_all_metadata db b1 b2).2.2.2 = db :=
  ⟨get_bundle_state db i b1 b2, get_metadata_state db i b1,
   has_bundle_state db i b1, count_bundles_state db,
   get_all_ids_state db b1 b2, get_all_metadata_state db b1 b2⟩
